import Mathlib

/-!
Verification of the futures-rs task module (`src/task/mod.rs`).

A shallow embedding of the task/poll/notify substrate:

* `Poll` — the result of one single-step poll of a future.
* `UnparkEvent` / `Events` — the "wake-reason" event list attached to a task
  handle; firing an event inserts an id into an external concurrent set,
  which we observe as a trace of insertions.
* `Task` — a task handle: id, shared wakeup capability, event list.
  The wakeup capability (`Arc<Unpark>`) is modelled by an identity token
  (a `Nat` naming the shared allocation); cloning the handle shares it.
* Ambient context — the thread-local `CURRENT_TASK` cell.  The Rust code
  stores the pair `(*const Task, *const LocalMap)` in a single `Cell`, and
  the two pointers are always set together (both null or both non-null),
  so the cell is modelled as `Option (Task × Nat)` with the local map
  named by a pointer-identity token.
* `set`, `with_current`, `park`, `with_unpark_event`, `Spawn.enter` —
  explicit-state renderings of the corresponding functions; bodies are
  state transformers `Ambient → Outcome R × Ambient` where `Outcome`
  distinguishes normal return from a panic (nonlocal exit).
* `fresh_task_id` / `spawn` — the process-wide id counter, with `usize`
  arithmetic as `Nat` reduced mod `2 ^ 64`.
* `UnparkMutex` — the three-state synchronizer.  Its source file
  (`src/task/unpark_mutex.rs`) is not part of the sources under study,
  so it is modelled from the specification's description of its states
  and operations.
* `Run.run`, `Inner.unpark` — the executor-driving protocol around the
  mutex, and the blocking driver `wait_future`.
-/

namespace FuturesTask

/-- Result of one single-step poll: ready with a value, ready with an
error, or not ready. -/
inductive Poll (A E : Type) where
  | Ok : A → Poll A E
  | Err : E → Poll A E
  | NotReady : Poll A E
deriving Repr, DecidableEq

/-- Result of running a body: a normal return or a panic carrying the
diagnostic message.  A panic models Rust unwinding (any nonlocal exit). -/
inductive Outcome (R : Type) where
  | ok : R → Outcome R
  | panicked : String → Outcome R
deriving Repr, DecidableEq

/-- Rust `UnparkEvent { set: Arc<EventSet>, item: usize }`.  The external
concurrent set is named by an identity token; its only operation is
`insert`, which we observe in a trace. -/
structure UnparkEvent where
  set : Nat
  item : Nat
deriving Repr, DecidableEq

/-- Rust `Events { set: Vec<UnparkEvent> }` — the ordered list of unpark
events carried by a task handle. -/
structure Events where
  set : List UnparkEvent
deriving Repr, DecidableEq

/-- A task handle: `Task { id, unpark: Arc<Unpark>, events }`.  The
shared wakeup capability is named by an identity token; cloning the
handle copies the id and shares the capability and the event list. -/
structure Task where
  id : Nat
  unpark_ref : Nat
  events : Events
deriving Repr, DecidableEq

/-- Rust `Task::clone` (derived `Clone`): duplicates the id, shares the
capability by reference, clones the event list — observably the same
value. -/
def Task.clone (t : Task) : Task := t

/-- One observable step of `Task::unpark`: an insertion into an external
event set, or an invocation of the underlying wakeup capability. -/
inductive TraceItem where
  | insert : Nat → Nat → TraceItem
  | unparkCap : Nat → TraceItem
deriving Repr, DecidableEq

/-- Rust `Events::new()` — the empty event list. -/
def Events.new : Events := ⟨[]⟩

/-- Rust `Events::trigger` — insert each event's item into its set, in list
order; observed as the trace of insertions. -/
def Events.trigger (es : Events) : List TraceItem :=
  es.set.map (fun e => TraceItem.insert e.set e.item)

/-- Rust `Events::with_event` — functional extension: clone the vector and
push the new event at the end. -/
def Events.with_event (es : Events) (event : UnparkEvent) : Events :=
  ⟨es.set ++ [event]⟩

/-- Rust `Task::unpark` — trigger the events, then invoke the wakeup
capability; observed as the concatenated trace. -/
def Task.unpark (t : Task) : List TraceItem :=
  t.events.trigger ++ [TraceItem.unparkCap t.unpark_ref]

/-! ## Ambient context

The thread-local `CURRENT_TASK : Cell<(*const Task, *const LocalMap)>`,
with both pointers null initially and always written together. -/

/-- The thread-local cell: `none` is the null pair, `some (task, map)`
an installed pair, the local map named by pointer identity. -/
abbrev Ambient := Option (Task × Nat)

/-- A body run under an installed ambient context: an explicit-state
transformer that may finish normally or panic. -/
abbrev Body (R : Type) := Ambient → Outcome R × Ambient

/-- Rust `set(task, data, f)` — save the prior pair, install `(task, data)`,
run `f`, and restore the prior pair on every exit path (the `Reset`
drop guard runs on normal return and during unwinding alike). -/
def set (task : Task) (data : Nat) (f : Body R) (amb : Ambient) :
    Outcome R × Ambient :=
  ((f (some (task, data))).1, amb)

/-- Rust `with(f)` — read the current pair; panic with
"no Task is currently running" if it is null, otherwise hand the
borrowed task and map to `f`. -/
def with_current (f : Task → Nat → Body R) (amb : Ambient) :
    Outcome R × Ambient :=
  match amb with
  | none => (Outcome.panicked "no Task is currently running", amb)
  | some (task, data) => f task data amb

/-- Rust `park()` — `with(|task, _| task.clone())`. -/
def park (amb : Ambient) : Outcome Task × Ambient :=
  with_current (fun task _ a => (Outcome.ok task.clone, a)) amb

/-- Rust `with_unpark_event(event, f)` — build a new `Task` with the same id,
a clone of the shared capability, and the extended event list, and run
`f` with that task installed (over the same local map). -/
def with_unpark_event (event : UnparkEvent) (f : Body R) (amb : Ambient) :
    Outcome R × Ambient :=
  with_current (fun task data =>
    let new_task : Task :=
      { id := task.id
        unpark_ref := task.unpark_ref
        events := task.events.with_event event }
    set new_task data f) amb

/-! ## Task identity and `Spawn` -/

/-- Rust `usize::max_value()` on a 64-bit platform. -/
def usizeMax : Nat := 2 ^ 64 - 1

/-- Rust `fresh_task_id()` — `NEXT_ID.fetch_add(1, Relaxed)` followed by
`assert!(id < usize::max_value() / 2, "too many previous tasks have been
allocated")`.  The counter is a `usize`, so the fetched value and the
incremented counter are reduced mod `2 ^ 64`; the assert fires after the
increment.  The explicit counter state is threaded. -/
def fresh_task_id (next_id : Nat) : Outcome Nat × Nat :=
  let id := next_id % 2 ^ 64
  let next := (next_id + 1) % 2 ^ 64
  if id < usizeMax / 2 then
    (Outcome.ok id, next)
  else
    (Outcome.panicked "too many previous tasks have been allocated", next)

/-- Rust `Spawn<T> { obj, id, data }` — the pollable object, the task id, and
the task-local map (named by an identity token; `data::local_map()`
allocates a fresh one). -/
structure Spawn (T : Type) where
  obj : T
  id : Nat
  data : Nat
deriving Repr, DecidableEq

/-- Rust `spawn(obj)` — bind the object to a fresh id and a fresh local map
(the fresh map's identity token is taken equal to the id). -/
def spawn (obj : T) (next_id : Nat) : Outcome (Spawn T) × Nat :=
  match fresh_task_id next_id with
  | (Outcome.ok id, next) => (Outcome.ok { obj := obj, id := id, data := id }, next)
  | (Outcome.panicked msg, next) => (Outcome.panicked msg, next)

/-- A run of `n` consecutive `fresh_task_id` calls threading the
process-wide counter from `next_id`, listing each call's outcome. -/
def fresh_run : Nat → Nat → List (Outcome Nat)
  | 0, _ => []
  | n + 1, next_id =>
    (fresh_task_id next_id).1 :: fresh_run n (fresh_task_id next_id).2

/-- Rust `Spawn::enter(unpark, f)` — build a `Task` from this spawn's id, the
given capability, and an empty event list, and run `f` on the object
with that task and this spawn's local map installed.  The body receives
the object and returns (besides the ambient effect) its result and the
updated object. -/
def Spawn.enter (sp : Spawn T) (unpark : Nat) (f : T → Body (R × T))
    (amb : Ambient) : (Outcome (R × T) × Ambient) :=
  let task : Task := { id := sp.id, unpark_ref := unpark, events := Events.new }
  set task sp.data (f sp.obj) amb

/-! ## Blocking driver

`Spawn::wait_future` — poll in a loop with a `ThreadUnpark` capability,
parking the OS thread after every not-ready poll.  The future is a
state machine `pollFn : F → Poll A E × F`; the driver is given fuel
(one unit per poll) and reports the result together with the number of
times the thread parked.  `none` means the fuel ran out before the
future completed. -/
def wait_future (pollFn : F → Poll A E × F) : Nat → F → Option (Except E A × Nat)
  | 0, _ => none
  | fuel + 1, f =>
    match pollFn f with
    | (Poll.Ok v, _) => some (Except.ok v, 0)
    | (Poll.Err e, _) => some (Except.error e, 0)
    | (Poll.NotReady, f') =>
      (wait_future pollFn fuel f').map (fun r => (r.1, r.2 + 1))

/-! ## UnparkMutex

Modelled from the spec: the file `src/task/unpark_mutex.rs` holding
`UnparkMutex<D>` is not among the sources under study, so its states
and operations are taken from the specification's §4.1: a three-state
synchronizer `Waiting` (payload held) / `Polling` / `Repoll` /
`Complete`, with operations `start_poll`, `wait`, `notify`,
`complete`. -/
inductive MutexState (P : Type) where
  | Waiting : P → MutexState P
  | Polling : MutexState P
  | Repoll : MutexState P
  | Complete : MutexState P
deriving Repr, DecidableEq

namespace UnparkMutex

/-- Modelled from the spec: `start_poll()` transitions Waiting→Polling.
Calling it without having received the payload (via `notify()` or from
initial construction) is undefined behavior per the spec; the model
moves every state to `Polling`, which is the state `Run::run` relies
on at entry. -/
def start_poll : MutexState P → MutexState P :=
  fun _ => MutexState.Polling

/-- Modelled from the spec: `wait(payload)` attempts Polling→Waiting,
storing the payload; if the state is Repoll it hands the payload back
unchanged and transitions Repoll→Polling ("repoll immediately"),
otherwise it reports success.  The second component is the handed-back
payload (`none` = success). -/
def wait (payload : P) : MutexState P → MutexState P × Option P
  | MutexState.Repoll => (MutexState.Polling, some payload)
  | _ => (MutexState.Waiting payload, none)

/-- Modelled from the spec: `notify()` — from Waiting, transition to
Polling and yield the payload for re-enqueueing; from Polling,
transition to Repoll and yield nothing; from Repoll or Complete, do
nothing. -/
def notify : MutexState P → MutexState P × Option P
  | MutexState.Waiting p => (MutexState.Polling, some p)
  | MutexState.Polling => (MutexState.Repoll, none)
  | MutexState.Repoll => (MutexState.Repoll, none)
  | MutexState.Complete => (MutexState.Complete, none)

/-- Modelled from the spec: `complete()` — transition any state to
Complete, dropping any held payload. -/
def complete : MutexState P → MutexState P :=
  fun _ => MutexState.Complete

end UnparkMutex

/-! ## Run / Inner

`Run { spawn, inner }` drives the mutex protocol around repeated polls
of an erased unit-unit future.  The erased future is modelled as a
script: one entry per poll, giving the poll's result and the number of
external `notify()` calls that arrive at the mutex while that poll is
executing.  The mutex payload is the remaining script (the spawn the
stored `Run` would carry).  An exhausted script keeps returning
not-ready with no arrivals. -/
abbrev RunScript := List (Poll Unit Unit × Nat)

/-- One poll of the scripted future: its result, the notifies arriving
during it, and the remaining script. -/
def pollScript : RunScript → Poll Unit Unit × Nat × RunScript
  | [] => (Poll.NotReady, 0, [])
  | (res, k) :: rest => (res, k, rest)

/-- Deliver `k` external `notify()` calls to the mutex in sequence
(payloads cannot emerge while a poll is in flight; see
`notifyN_polling_no_payload`). -/
def notifyN : Nat → MutexState P → MutexState P
  | 0, m => m
  | k + 1, m => notifyN k (UnparkMutex.notify m).1

/-- The loop body of `Run::run`: poll the future; on a final value or
error, `complete()` and return; on not-ready, reconstruct the run
payload and `wait` — on success return, on failure loop with the
handed-back payload.  Fuel bounds the number of polls; `none` = fuel
ran out. -/
def run_loop : Nat → RunScript → MutexState RunScript → Option (MutexState RunScript)
  | 0, _, _ => none
  | fuel + 1, spawn_script, m =>
    let (res, k, rest) := pollScript spawn_script
    let m1 := notifyN k m
    match res with
    | Poll.Ok _ => some (UnparkMutex.complete m1)
    | Poll.Err _ => some (UnparkMutex.complete m1)
    | Poll.NotReady =>
      match UnparkMutex.wait rest m1 with
      | (m2, none) => some m2
      | (m2, some handed_back) => run_loop fuel handed_back m2

/-- Rust `Run::run` — enter with ownership evidence, `start_poll()`, then
run the poll/complete/wait loop. -/
def Run.run (fuel : Nat) (spawn_script : RunScript) (m : MutexState RunScript) :
    Option (MutexState RunScript) :=
  run_loop fuel spawn_script (UnparkMutex.start_poll m)

/-- Whether a poll result is final (a value or an error) rather than
not-ready. -/
def Poll.is_final : Poll A E → Bool
  | Poll.NotReady => false
  | Poll.Ok _ => true
  | Poll.Err _ => true

/-- The algorithm of §4.2 as the spec words it, step by step:
1. poll the future; 2. if it returned a final value or an error,
`complete()` and drop the Run — done; 3. if not ready, reconstruct a
Run payload and call `wait(run)`: on success return, on failure (Repoll
collapsed to Polling and the payload handed back) loop back to step 1
with the returned payload.  Written independently of `run_loop` to be
compared against it. -/
def run_spec_alg : Nat → RunScript → MutexState RunScript → Option (MutexState RunScript)
  | 0, _, _ => none
  | fuel + 1, spawn_script, m =>
    let step1 := pollScript spawn_script
    let during := notifyN step1.2.1 m
    if step1.1.is_final then
      some (UnparkMutex.complete during)
    else
      match UnparkMutex.wait step1.2.2 during with
      | (stored, none) => some stored
      | (back_to_polling, some returned_payload) =>
        run_spec_alg fuel returned_payload back_to_polling

/-- Rust `impl Unpark for Inner` — `notify()` the mutex; if a payload is
received, submit it to the executor, otherwise do nothing.  The
executor is observed as the queue of submitted payloads. -/
def Inner.unpark (exec : List P) (m : MutexState P) : MutexState P × List P :=
  match UnparkMutex.notify m with
  | (m', some run) => (m', exec ++ [run])
  | (m', none) => (m', exec)

/-- Extract the successfully allocated ids from a list of
`fresh_task_id` outcomes. -/
def ok_ids (l : List (Outcome Nat)) : List Nat :=
  l.filterMap (fun r =>
    match r with
    | Outcome.ok i => some i
    | Outcome.panicked _ => none)

/-- Whether an outcome is a normal return. -/
def Outcome.isOk : Outcome R → Bool
  | Outcome.ok _ => true
  | Outcome.panicked _ => false

/-! ## Helper lemmas -/

/-- While a poll is in flight (Polling or Repoll), `notify()` never
yields a payload: there is nothing to re-enqueue. -/
lemma notify_in_flight_no_payload (P : Type) :
    (UnparkMutex.notify (MutexState.Polling : MutexState P)).2 = none
    ∧ (UnparkMutex.notify (MutexState.Repoll : MutexState P)).2 = none :=
  ⟨rfl, rfl⟩

/-- The numeric value of the id-exhaustion threshold. -/
lemma usizeMax_half_val : usizeMax / 2 = 9223372036854775807 := by
  norm_num [usizeMax]

/-- A successful `fresh_task_id` step from an in-range counter. -/
lemma fresh_task_id_ok (c : Nat) (hc : c < 2 ^ 64) (hlt : c < usizeMax / 2) :
    fresh_task_id c = (Outcome.ok c, c + 1) := by
  have hc1 : (c + 1) % 2 ^ 64 = c + 1 := by
    rw [usizeMax_half_val] at hlt
    omega
  simp only [fresh_task_id, Nat.mod_eq_of_lt hc, hc1, if_pos hlt]

/-- A failing `fresh_task_id` step from a counter at or past the
threshold. -/
lemma fresh_task_id_exhausted (c : Nat) (hge : usizeMax / 2 ≤ c % 2 ^ 64) :
    (fresh_task_id c).1
      = Outcome.panicked "too many previous tasks have been allocated" := by
  simp only [fresh_task_id, if_neg (Nat.not_lt_of_le hge)]

/-- An all-successful run of `fresh_task_id` calls from an in-range
counter value yields exactly the consecutive ids. -/
lemma fresh_run_all_ok (n : Nat) :
    ∀ c, c < 2 ^ 64 →
      (∀ r ∈ fresh_run n c, r.isOk = true) →
      fresh_run n c = (List.range' c n).map Outcome.ok := by
  induction n with
  | zero => intro c _ _; rfl
  | succ n ih =>
    intro c hc h
    by_cases hlt : c < usizeMax / 2
    · have hstep := fresh_task_id_ok c hc hlt
      have hc1 : c + 1 < 2 ^ 64 := by
        rw [usizeMax_half_val] at hlt
        omega
      have hrest : ∀ r ∈ fresh_run n (c + 1), r.isOk = true := by
        intro r hr
        apply h
        simp only [fresh_run, hstep, List.mem_cons]
        exact Or.inr hr
      have htail := ih (c + 1) hc1 hrest
      simp only [fresh_run, hstep, htail, List.range'_succ, List.map_cons]
    · exfalso
      have hge : usizeMax / 2 ≤ c % 2 ^ 64 := by
        rw [Nat.mod_eq_of_lt hc]
        exact Nat.le_of_not_lt hlt
      have hmem : (fresh_task_id c).1 ∈ fresh_run (n + 1) c := by
        simp [fresh_run]
      have hok := h _ hmem
      rw [fresh_task_id_exhausted c hge] at hok
      simp [Outcome.isOk] at hok

/-- The first component of a successful `spawn` carries the allocated
id (also used as the fresh local map's identity). -/
lemma spawn_ok_id (T : Type) (obj : T) (c : Nat) (sp : Spawn T)
    (h : (spawn obj c).1 = Outcome.ok sp) :
    (fresh_task_id c).1 = Outcome.ok sp.id ∧ sp.obj = obj ∧ sp.data = sp.id := by
  rcases hfid : fresh_task_id c with ⟨r, next⟩
  cases r with
  | ok i =>
    simp only [spawn, hfid] at h
    cases h
    exact ⟨rfl, rfl, rfl⟩
  | panicked msg =>
    simp only [spawn, hfid] at h
    cases h

/-- Extracting the successful ids from an all-successful outcome list
recovers the ids. -/
lemma ok_ids_map_ok (l : List Nat) : ok_ids (l.map Outcome.ok) = l := by
  induction l with
  | nil => rfl
  | cons x xs ih => simpa [ok_ids, List.filterMap_cons] using ih

/-! ## Claim theorems -/

/-- C3: A single call to `Task::unpark` first inserts the (set, id)
pairs from its events list into their event sets in list-append order,
and invokes the underlying wakeup capability strictly after all event
insertions — the trace is exactly the insertions in list order followed
by the capability invocation, whatever the capability then does. -/
theorem task_unpark_fires_events_in_order_before_capability (t : Task) :
    Task.unpark t
      = t.events.set.map (fun e => TraceItem.insert e.set e.item)
          ++ [TraceItem.unparkCap t.unpark_ref]
    ∧ (Task.unpark t).length = t.events.set.length + 1
    ∧ (∀ (i : Nat) (e : UnparkEvent), t.events.set[i]? = some e →
        (Task.unpark t)[i]? = some (TraceItem.insert e.set e.item))
    ∧ (Task.unpark t)[t.events.set.length]?
        = some (TraceItem.unparkCap t.unpark_ref) := by
  refine ⟨rfl, by simp [Task.unpark, Events.trigger], ?_, ?_⟩
  · intro i e he
    obtain ⟨hi, hv⟩ := List.getElem?_eq_some.mp he
    rw [Task.unpark, Events.trigger, List.getElem?_append]
    simp [hi, hv]
  · rw [Task.unpark, Events.trigger, List.getElem?_append]
    simp

/-- C3 witness: a concrete handle with two events. -/
theorem task_unpark_order_witness :
    (Task.unpark ⟨5, 7, ⟨[⟨1, 10⟩, ⟨2, 20⟩]⟩⟩)[0]?
      = some (TraceItem.insert 1 10) := by
  have h := task_unpark_fires_events_in_order_before_capability
    ⟨5, 7, ⟨[⟨1, 10⟩, ⟨2, 20⟩]⟩⟩
  exact h.2.2.1 0 ⟨1, 10⟩ rfl

/-- C4: `with_unpark_event(event, f)` does not mutate the outer Task or
its events list: it runs `f` under a new Task with the same id, the
same shared capability, and the outer events list extended by the
event, over the same local map, and restores the outer ambient pair
afterwards; nesting accumulates events in nesting order. -/
theorem with_unpark_event_functional_extension
    (R : Type) (t : Task) (d : Nat) (ev ev2 : UnparkEvent) (f : Body R) :
    with_unpark_event ev f (some (t, d))
      = ((f (some ({ id := t.id, unpark_ref := t.unpark_ref,
                     events := ⟨t.events.set ++ [ev]⟩ }, d))).1, some (t, d))
    ∧ (with_unpark_event ev (fun a => with_unpark_event ev2 f a)
          (some (t, d))).1
      = (f (some ({ id := t.id, unpark_ref := t.unpark_ref,
                    events := ⟨t.events.set ++ [ev, ev2]⟩ }, d))).1 := by
  constructor
  · rfl
  · simp [with_unpark_event, with_current, set, Events.with_event]

/-- C5: `set(task, data, f)` saves the prior ambient pair, installs the
new pair for the body, and restores the prior pair on every exit path —
normal return and panic alike; nested installations restore in LIFO
order, and `Spawn::enter` (which installs through `set`) restores as
well. -/
theorem set_saves_and_restores_on_all_exits
    (R : Type) (task : Task) (data : Nat) (f : Body R) (amb : Ambient) :
    (set task data f amb).2 = amb
    ∧ (set task data f amb).1 = (f (some (task, data))).1
    ∧ (∀ msg a', f (some (task, data)) = (Outcome.panicked msg, a') →
        set task data f amb = (Outcome.panicked msg, amb))
    ∧ (∀ (t2 : Task) (d2 : Nat) (g : Body R),
        (set t2 d2 g (some (task, data))).2 = some (task, data)
        ∧ (set task data (fun a1 => set t2 d2 g a1) amb).2 = amb)
    ∧ (∀ (T R2 : Type) (sp : Spawn T) (u : Nat) (fb : T → Body (R2 × T)),
        (Spawn.enter sp u fb amb).2 = amb) := by
  refine ⟨rfl, rfl, ?_, fun t2 d2 g => ⟨rfl, rfl⟩, fun T R2 sp u fb => rfl⟩
  intro msg a' h
  rw [set, h]

/-- C5 witness: a panicking body still restores the (null) prior pair,
and the panic propagates. -/
theorem set_restores_witness :
    set ⟨1, 2, ⟨[]⟩⟩ 3 (fun a => (Outcome.panicked "boom", a)) none
      = ((Outcome.panicked "boom" : Outcome Unit), none) :=
  (set_saves_and_restores_on_all_exits Unit ⟨1, 2, ⟨[]⟩⟩ 3
      (fun a => (Outcome.panicked "boom", a)) none).2.2.1
    "boom" (some (⟨1, 2, ⟨[]⟩⟩, 3)) rfl

/-- C6 counterexample: with no ambient task installed, `park()` panics
with the diagnostic "no Task is currently running" (capital T), not the
claimed "no task is currently running". -/
theorem park_diagnostic_counterexample :
    (park none).1 = Outcome.panicked "no Task is currently running"
    ∧ (park none).1 ≠ Outcome.panicked "no task is currently running" := by
  exact ⟨rfl, by decide⟩

/-- C6 (amended): calling `park()` or `with_unpark_event` with no
ambient task installed (the thread-local pair is null) fails loudly
with the diagnostic "no Task is currently running" rather than
returning a handle; with an ambient task installed, `park()` succeeds
and returns a clone of the installed Task. -/
theorem park_requires_ambient_task (t : Task) (d : Nat) :
    (park none).1 = Outcome.panicked "no Task is currently running"
    ∧ (∀ (R : Type) (ev : UnparkEvent) (f : Body R),
        (with_unpark_event ev f none).1
          = Outcome.panicked "no Task is currently running")
    ∧ park (some (t, d)) = (Outcome.ok t.clone, some (t, d)) := by
  exact ⟨rfl, fun R ev f => rfl, rfl⟩

/-- C10: during `with_unpark_event(event, f)` only the ambient task is
replaced: the local map installed for the body is the very same map as
in the enclosing context (here observed by a body that reads the map
component of the ambient pair). -/
theorem with_unpark_event_same_local_map (t : Task) (d : Nat) (ev : UnparkEvent) :
    (with_unpark_event ev (fun a => (Outcome.ok (a.map Prod.snd), a))
        (some (t, d))).1
      = Outcome.ok (some d) := by
  rfl

/-- C1: every `notify()` routed through `Inner::unpark` that does not
follow `complete()` leads to a poll — from Waiting it retrieves the Run
payload and submits it to the executor; from Polling it records Repoll,
which the in-flight poll observes at `wait` and gets its payload handed
back for an immediate repoll; from Repoll a repoll is already pending
(and `wait` still hands the payload back); only from Complete does it
do nothing with nothing pending.  It submits nothing only when a poll
is in flight or the future is complete. -/
theorem notify_delivers_or_pending (P : Type) (m : MutexState P) (exec : List P) :
    (∀ p, m = MutexState.Waiting p →
        Inner.unpark exec m = (MutexState.Polling, exec ++ [p]))
    ∧ (m = MutexState.Polling →
        Inner.unpark exec m = (MutexState.Repoll, exec)
        ∧ (∀ p', UnparkMutex.wait p' (MutexState.Repoll : MutexState P)
            = (MutexState.Polling, some p')))
    ∧ (m = MutexState.Repoll →
        Inner.unpark exec m = (MutexState.Repoll, exec)
        ∧ (∀ p', UnparkMutex.wait p' (MutexState.Repoll : MutexState P)
            = (MutexState.Polling, some p')))
    ∧ (m = MutexState.Complete →
        Inner.unpark exec m = (MutexState.Complete, exec))
    ∧ ((Inner.unpark exec m).2 = exec →
        m = MutexState.Polling ∨ m = MutexState.Repoll
          ∨ m = MutexState.Complete) := by
  cases m <;>
    simp [Inner.unpark, UnparkMutex.notify, UnparkMutex.wait]

/-- C1 witness: a notify while Waiting submits the payload; a notify
while Polling records Repoll and `wait` hands the payload back. -/
theorem notify_delivers_witness :
    Inner.unpark ([] : List Nat) (MutexState.Waiting 7)
      = (MutexState.Polling, [7])
    ∧ Inner.unpark ([] : List Nat) MutexState.Polling
      = (MutexState.Repoll, [])
    ∧ UnparkMutex.wait 9 (MutexState.Repoll : MutexState Nat)
      = (MutexState.Polling, some 9) := by
  refine ⟨(notify_delivers_or_pending Nat (MutexState.Waiting 7) []).1 7 rfl,
          ((notify_delivers_or_pending Nat MutexState.Polling []).2.1 rfl).1,
          ((notify_delivers_or_pending Nat MutexState.Polling []).2.1 rfl).2 9⟩

/-- C2: `Run::run` follows exactly the algorithm of §4.2 — poll; on a
final value or error, `complete()` and return; on not-ready,
reconstruct the Run payload and `wait(run)`: return on success, loop
back to polling with the handed-back payload on failure.  Stated as
equality of the translated `Run::run` with the independently written
step-by-step algorithm `run_spec_alg`, after the entry `start_poll`. -/
theorem run_run_follows_spec_algorithm (fuel : Nat) (s : RunScript)
    (m : MutexState RunScript) :
    Run.run fuel s m = run_spec_alg fuel s (UnparkMutex.start_poll m)
    ∧ run_loop fuel s m = run_spec_alg fuel s m := by
  suffices h : ∀ fuel s m, run_loop fuel s m = run_spec_alg fuel s m by
    exact ⟨h fuel s _, h fuel s m⟩
  intro fuel
  induction fuel with
  | zero => intro s m; rfl
  | succ fuel ih =>
    intro s m
    rcases s with _ | ⟨⟨res, k⟩, rest⟩
    · rcases hw : UnparkMutex.wait [] (notifyN 0 m) with ⟨m2, _ | p⟩ <;>
        simp [run_loop, run_spec_alg, pollScript, Poll.is_final, hw, ih]
    · cases res with
      | Ok v =>
        simp [run_loop, run_spec_alg, pollScript, Poll.is_final]
      | Err e =>
        simp [run_loop, run_spec_alg, pollScript, Poll.is_final]
      | NotReady =>
        rcases hw : UnparkMutex.wait rest (notifyN k m) with ⟨m2, _ | p⟩ <;>
          simp [run_loop, run_spec_alg, pollScript, Poll.is_final, hw, ih]

/-- C7: a future that is ready on its first poll makes `wait_future`
return `Ok` of that value with the thread never parking; a first-poll
error returns `Err` of that error without parking; the thread parks
exactly once per not-ready poll, after which the loop re-polls. -/
theorem wait_future_poll_behavior (F A E : Type) (pollFn : F → Poll A E × F)
    (f f' : F) (n : Nat) :
    (∀ v, pollFn f = (Poll.Ok v, f') →
        wait_future pollFn (n + 1) f = some (Except.ok v, 0))
    ∧ (∀ e, pollFn f = (Poll.Err e, f') →
        wait_future pollFn (n + 1) f = some (Except.error e, 0))
    ∧ (pollFn f = (Poll.NotReady, f') →
        wait_future pollFn (n + 1) f
          = (wait_future pollFn n f').map (fun r => (r.1, r.2 + 1))) := by
  refine ⟨fun v h => ?_, fun e h => ?_, fun h => ?_⟩ <;>
    simp [wait_future, h]

/-- C7 witness: a future returning 42 on its first poll yields
`Ok 42` with zero parks. -/
theorem wait_future_immediate_witness :
    wait_future (fun (k : Nat) => ((Poll.Ok 42 : Poll Nat Unit), k)) 1 0
      = some (Except.ok 42, 0) :=
  (wait_future_poll_behavior Nat Nat Unit
      (fun k => (Poll.Ok 42, k)) 0 0 0).1 42 rfl

/-- C8: whenever the process-wide counter has reached the point where
the next id would be at least `usize::max_value() / 2`, allocating a
fresh task id — and hence `spawn` — aborts with the diagnostic about
too many allocated tasks instead of returning an id. -/
theorem fresh_task_id_aborts_past_half_range (c : Nat)
    (h : usizeMax / 2 ≤ c % 2 ^ 64) :
    (fresh_task_id c).1
      = Outcome.panicked "too many previous tasks have been allocated"
    ∧ (∀ (T : Type) (obj : T),
        (spawn obj c).1
          = Outcome.panicked "too many previous tasks have been allocated") := by
  refine ⟨fresh_task_id_exhausted c h, ?_⟩
  intro T obj
  have h1 := fresh_task_id_exhausted c h
  rcases hfid : fresh_task_id c with ⟨r, next⟩
  rw [hfid] at h1
  simp only at h1
  simp [spawn, hfid, h1]

/-- C8 witness: at the threshold counter value the allocation aborts. -/
theorem fresh_task_id_aborts_witness :
    (fresh_task_id (usizeMax / 2)).1
      = Outcome.panicked "too many previous tasks have been allocated" :=
  (fresh_task_id_aborts_past_half_range (usizeMax / 2)
    (by rw [usizeMax_half_val]; norm_num)).1

/-- C9: in a process run (counter starting at 0) in which every
allocation succeeded — an aborting allocation ends the run — the
allocated ids are exactly the consecutive counter values, so the ids
carried by the resulting Spawn values are pairwise distinct; and a
successful `spawn`'s id is the id allocated by `fresh_task_id` at that
counter state. -/
theorem spawn_ids_pairwise_distinct (n : Nat)
    (h : ∀ r ∈ fresh_run n 0, r.isOk = true) :
    fresh_run n 0 = (List.range' 0 n).map Outcome.ok
    ∧ (ok_ids (fresh_run n 0)).Nodup
    ∧ (∀ (T : Type) (obj : T) (c : Nat) (sp : Spawn T),
        (spawn obj c).1 = Outcome.ok sp →
          (fresh_task_id c).1 = Outcome.ok sp.id) := by
  have heq := fresh_run_all_ok n 0 (by norm_num) h
  refine ⟨heq, ?_, fun T obj c sp hsp => (spawn_ok_id T obj c sp hsp).1⟩
  rw [heq, ok_ids_map_ok]
  exact List.nodup_range' 0 n

/-- C9 witness: three spawns from the initial counter allocate the
distinct ids 0, 1, 2. -/
theorem spawn_ids_distinct_witness :
    fresh_run 3 0 = [Outcome.ok 0, Outcome.ok 1, Outcome.ok 2]
    ∧ (ok_ids (fresh_run 3 0)).Nodup := by
  have h := spawn_ids_pairwise_distinct 3 (by decide)
  exact ⟨by rw [h.1]; rfl, h.2.1⟩

